import Mathlib

/-!
# Process helpers of the runtime-security eBPF probes

A shallow embedding of `pkg/security/ebpf/c/include/helpers/process.h`.

* BPF maps are association lists from integer keys to values; a lookup yields
  `Option`, the C `NULL` being `none`.
* A pointer into a map value is the key of its slot; a store through such a
  pointer is `bpf_map_store`.
* Functions that write through a pointer argument take the pointed-to record
  and return its new value.
* Machine integers are `Nat`, truncated with `% 2 ^ w` where the C code
  assigns to a narrower type.
* Memory outside the program is a partial map from addresses to bytes; a
  bounded read of it yields the bytes or faults, and a variable read that way
  is its bytes, least significant first.
* Constants and offsets of headers outside this one are parameters.
-/

namespace Process

/-! ## Cache store primitives -/

/-- Modelled from the spec: the map storage primitives are kernel helpers
outside the header. A table is a list of key/value slots. -/
abbrev bpf_map (V : Type) := List (Nat × V)

/-- Modelled from the spec: `get(table, key) -> value|None`, the first slot
stored under `key`. -/
def bpf_map_lookup_elem {V : Type} : bpf_map V → Nat → Option V
  | [], _ => none
  | (k, v) :: rest, key => if k = key then some v else bpf_map_lookup_elem rest key

/-- Modelled from the spec: `delete(table, key)`, a no-op when the key is
absent. -/
def bpf_map_delete_elem {V : Type} (m : bpf_map V) (key : Nat) : bpf_map V :=
  m.filter (fun e => decide (e.1 ≠ key))

/-- Store through a pointer previously returned by `bpf_map_lookup_elem`: the
slot found by the lookup under `key` gets the value `w`. -/
def bpf_map_store {V : Type} : bpf_map V → Nat → V → bpf_map V
  | [], _, _ => []
  | (k, v) :: rest, key, w =>
    if k = key then (k, w) :: rest else (k, v) :: bpf_map_store rest key w

/-! ## Data model -/

/-- Modelled from the spec: `struct path_key_t` is declared in
`events_definition.h`; the header reads `ino`, the other bytes are `other`. -/
structure path_key_t where
  ino : Nat
  other : List Nat
deriving DecidableEq, Repr

/-- Modelled from the spec: `struct file_t` (the `executable` of an image
entry), declared in `events_definition.h`; the header reads `path_key`. -/
structure file_t where
  path_key : path_key_t
  other : List Nat
deriving DecidableEq, Repr

/-- Modelled from the spec: `struct process_entry_t`, declared in
`events_definition.h`, with the four fields the header names. -/
structure process_entry_t where
  executable : file_t
  exec_timestamp : Nat
  tty_name : List Nat
  comm : List Nat
deriving DecidableEq, Repr

/-- Modelled from the spec: the cgroup context of a container context; the
header names `cgroup_flags`. -/
structure cgroup_context_t where
  cgroup_flags : Nat
  other : List Nat
deriving DecidableEq, Repr

/-- Modelled from the spec: `struct container_context_t`, with the container
id buffer and the cgroup context the header names. -/
structure container_context_t where
  container_id : List Nat
  cgroup_context : cgroup_context_t
deriving DecidableEq, Repr

/-- Modelled from the spec: `struct proc_cache_t`, the image entry keyed by
cookie. -/
structure proc_cache_t where
  container : container_context_t
  entry : process_entry_t
deriving DecidableEq, Repr

/-- Modelled from the spec: `struct credentials_t`, a uid/gid/capabilities
snapshot copied by value. -/
structure credentials_t where
  uid : Nat
  gid : Nat
  capabilities : Nat
deriving DecidableEq, Repr

/-- Modelled from the spec: `struct pid_cache_t`, the thread-group entry keyed
by tgid: the five fields the header copies and the exit timestamp. -/
structure pid_cache_t where
  cookie : Nat
  user_session_id : Nat
  ppid : Nat
  fork_timestamp : Nat
  exit_timestamp : Nat
  credentials : credentials_t
deriving DecidableEq, Repr

/-- Modelled from the spec: `struct process_context_t`, with `pid`, `tid`,
`netns`, `is_kworker` of 32 bits and `inode` of 64 bits. -/
structure process_context_t where
  pid : Nat
  tid : Nat
  netns : Nat
  is_kworker : Nat
  inode : Nat
deriving DecidableEq, Repr

/-- Modelled from the spec: `struct kevent_t`, the common event header; the
header writes `flags`, the other bytes are `other`. -/
structure kevent_t where
  flags : Nat
  other : List Nat
deriving DecidableEq, Repr

/-- Modelled from the spec: `struct process_event_t`, with the fields the
header names; the other bytes are `other`. -/
structure process_event_t where
  event : kevent_t
  args_id : Nat
  args_truncated : Nat
  envs_id : Nat
  envs_truncated : Nat
  other : List Nat
deriving DecidableEq, Repr

/-- Modelled from the spec: the tables of `maps.h` the header uses. -/
structure maps where
  kill_list : bpf_map Nat
  pid_cache : bpf_map pid_cache_t
  proc_cache : bpf_map proc_cache_t
  netns_cache : bpf_map Nat
  pid_ignored : bpf_map Nat
  process_event_gen : bpf_map process_event_t
deriving DecidableEq, Repr

/-! ## Process cache resolver -/

/-- The image entry of a cookie; the zero cookie is answered without a
lookup. -/
def get_proc_from_cookie (m : maps) (cookie : Nat) : Option proc_cache_t :=
  if cookie = 0 then none else bpf_map_lookup_elem m.proc_cache cookie

/-- The thread-group entry of a tgid. -/
def get_pid_cache (m : maps) (tgid : Nat) : Option pid_cache_t :=
  bpf_map_lookup_elem m.pid_cache tgid

/-- The image entry of a tgid, through the cookie of its thread-group
entry. -/
def get_proc_cache (m : maps) (tgid : Nat) : Option proc_cache_t :=
  match get_pid_cache m tgid with
  | none => none
  | some pid_entry => get_proc_from_cookie m pid_entry.cookie

/-- Fills `data` from a `pid_tgid` and returns the image entry found, with
the context as written. -/
def fill_process_context_with_pid_tgid (m : maps) (data : process_context_t)
    (pid_tgid : Nat) : Option proc_cache_t × process_context_t :=
  let tgid := (pid_tgid >>> 32) % 2 ^ 32
  let data1 := { data with pid := tgid, tid := pid_tgid % 2 ^ 32 }
  let tid := data1.tid
  let data2 :=
    match bpf_map_lookup_elem m.netns_cache tid with
    | some netns => { data1 with netns := netns }
    | none => data1
  let pid := data2.pid
  let data3 :=
    match bpf_map_lookup_elem m.pid_ignored pid with
    | some _ => { data2 with is_kworker := 1 }
    | none => data2
  match get_proc_cache m tgid with
  | some pc => (some pc, { data3 with inode := pc.entry.executable.path_key.ino })
  | none => (none, data3)

/-! ## Identity snapshot copier -/

/-- Modelled from the spec: the bounded, fault-tolerant read of the kernel,
which is outside the header. The first `size` bytes of `dst` become those of
the source, or zero when the source cannot be read (`none`). -/
def bpf_probe_read (dst : List Nat) (size : Nat) (src : Option (List Nat)) : List Nat :=
  match src with
  | some bytes => bytes.take size ++ dst.drop size
  | none => List.replicate size 0 ++ dst.drop size

/-- Copy of a tty name: nothing is copied from a source whose first byte is 0.
Returns the length reported and the destination buffer. `readable` tells
whether the bounded read of `src` succeeds. -/
def copy_tty_name (TTY_NAME_LEN : Nat) (readable : Bool) (src dst : List Nat) :
    Nat × List Nat :=
  if src.getD 0 0 = 0 then
    (0, dst)
  else
    (TTY_NAME_LEN % 2 ^ 32,
      bpf_probe_read dst TTY_NAME_LEN (if readable then some src else none))

/-- Copy of a thread-group entry into `dst`, field by field; returns `dst` as
written. -/
def copy_pid_cache_except_exit_ts (src dst : pid_cache_t) : pid_cache_t :=
  let dst1 := { dst with cookie := src.cookie }
  let dst2 := { dst1 with user_session_id := src.user_session_id }
  let dst3 := { dst2 with ppid := src.ppid }
  let dst4 := { dst3 with fork_timestamp := src.fork_timestamp }
  { dst4 with credentials := src.credentials }

/-! ## Event buffer pool -/

/-- The effect of `__builtin_memset(evt, 0, sizeof(*evt))`: every byte of the
record is zero. -/
def builtin_memset_zero (evt : process_event_t) : process_event_t :=
  { event := { flags := 0, other := List.replicate evt.event.other.length 0 },
    args_id := 0, args_truncated := 0, envs_id := 0, envs_truncated := 0,
    other := List.replicate evt.other.length 0 }

/-- The 32-bit slot key of `new_process_event`, from the value of
`bpf_get_current_pid_tgid()`. -/
def new_process_event_key (EVENT_GEN_SIZE current_pid_tgid : Nat) : Nat :=
  (current_pid_tgid % EVENT_GEN_SIZE) % 2 ^ 32

/-- Acquisition of an event record. `EVENT_GEN_SIZE` and
`EVENT_FLAGS_ACTIVITY_DUMP_SAMPLE` are the constants of `constants/custom.h`
and `constants/enums.h`; `current_pid_tgid` is the value of
`bpf_get_current_pid_tgid()`. Returns the pointer to the slot (its key) or
`none`, with the tables as written. -/
def new_process_event (EVENT_GEN_SIZE EVENT_FLAGS_ACTIVITY_DUMP_SAMPLE : Nat) (m : maps)
    (current_pid_tgid : Nat) (is_fork : Nat) : Option Nat × maps :=
  let key := new_process_event_key EVENT_GEN_SIZE current_pid_tgid
  match bpf_map_lookup_elem m.process_event_gen key with
  | some evt =>
    let evt1 := builtin_memset_zero evt
    let evt2 :=
      if is_fork = 0 then
        { evt1 with event :=
            { evt1.event with flags := evt1.event.flags ||| EVENT_FLAGS_ACTIVITY_DUMP_SAMPLE } }
      else evt1
    (some key, { m with process_event_gen := bpf_map_store m.process_event_gen key evt2 })
  | none => (none, m)

/-! ## Signal dispatcher -/

/-- Delivery of a pending signal. `is_send_signal_available` is the load-time
flag read by `is_send_signal_available()`. Returns the signals passed to
`bpf_send_signal`, in order, with the tables as written. -/
def send_signal (is_send_signal_available : Bool) (m : maps) (pid : Nat) :
    List Nat × maps :=
  if is_send_signal_available then
    match bpf_map_lookup_elem m.kill_list pid with
    | some sig =>
      if sig ≠ 0 then
        ([sig], { m with kill_list := bpf_map_delete_elem m.kill_list pid })
      else ([], m)
    | none => ([], m)
  else ([], m)

/-! ## Image entry copy -/

/-- Modelled from the spec: `copy_container_id` of `container.h`, which is
outside the header: the container id of the destination becomes that of the
source. -/
def copy_container_id (src _dst : List Nat) : List Nat := src

/-- Copy of an executable entry into `dst`, field by field; returns `dst` as
written. `readable` tells whether the bounded reads of `src` succeed. -/
def copy_proc_entry (TTY_NAME_LEN TASK_COMM_LEN : Nat) (readable : Bool)
    (src dst : process_entry_t) : process_entry_t :=
  let dst1 := { dst with executable := src.executable }
  let dst2 := { dst1 with exec_timestamp := src.exec_timestamp }
  let dst3 :=
    { dst2 with tty_name := (copy_tty_name TTY_NAME_LEN readable src.tty_name dst2.tty_name).2 }
  { dst3 with comm :=
      bpf_probe_read dst3.comm TASK_COMM_LEN (if readable then some src.comm else none) }

/-- Copy of an image entry into `dst`; returns `dst` as written. -/
def copy_proc_cache (TTY_NAME_LEN TASK_COMM_LEN : Nat) (readable : Bool)
    (src dst : proc_cache_t) : proc_cache_t :=
  let dst1 :=
    { dst with container :=
        { dst.container with container_id :=
            copy_container_id src.container.container_id dst.container.container_id } }
  let dst2 :=
    { dst1 with container :=
        { dst1.container with cgroup_context :=
            { dst1.container.cgroup_context with
                cgroup_flags := src.container.cgroup_context.cgroup_flags } } }
  { dst2 with entry := copy_proc_entry TTY_NAME_LEN TASK_COMM_LEN readable src.entry dst2.entry }

/-! ## Dying kworker -/

/-- Comparison of the comm of the current task with `kworker/dying`. `comm` is
the 16-byte buffer as filled by `bpf_get_current_comm`. -/
def is_current_kworker_dying (comm : List Nat) : Bool :=
  comm.getD 0 0 == Char.toNat 'k' && comm.getD 1 0 == Char.toNat 'w' &&
    comm.getD 2 0 == Char.toNat 'o' && comm.getD 3 0 == Char.toNat 'r' &&
    comm.getD 4 0 == Char.toNat 'k' && comm.getD 5 0 == Char.toNat 'e' &&
    comm.getD 6 0 == Char.toNat 'r' && comm.getD 7 0 == Char.toNat '/' &&
    comm.getD 8 0 == Char.toNat 'd' && comm.getD 9 0 == Char.toNat 'y' &&
    comm.getD 10 0 == Char.toNat 'i' && comm.getD 11 0 == Char.toNat 'n' &&
    comm.getD 12 0 == Char.toNat 'g'

/-- The bytes of the literal `kworker/dying`. -/
def kworker_dying : List Nat :=
  [107, 119, 111, 114, 107, 101, 114, 47, 100, 121, 105, 110, 103]

/-- The name held by a NUL-terminated buffer: the bytes before the first 0. -/
def comm_name (comm : List Nat) : List Nat :=
  comm.takeWhile (fun b => decide (b ≠ 0))

/-! ## Namespace walker -/

/-- Modelled from the spec: the external memory the walker reads, byte by
byte; `none` is an invalid or unmapped address. -/
abbrev kernel_memory := Nat → Option Nat

/-- Modelled from the spec: the Offset Provider, that is the values of
`get_task_struct_pid_offset()`, `get_pid_level_offset()`,
`get_pid_numbers_offset()` and `get_sizeof_upid()` of
`constants/offsets/process.h`, 64-bit integers fixed at load time. -/
structure process_offsets where
  task_struct_pid_offset : Nat
  pid_level_offset : Nat
  pid_numbers_offset : Nat
  sizeof_upid : Nat
deriving DecidableEq, Repr

/-- The `size` bytes of memory from `addr` on, `none` when one of them is
unmapped. -/
def read_kernel_memory (mem : kernel_memory) : Nat → Nat → Option (List Nat)
  | _, 0 => some []
  | addr, size + 1 =>
    match mem addr, read_kernel_memory mem (addr + 1) size with
    | some b, some rest => some (b :: rest)
    | _, _ => none

/-- The `size` bytes of the integer `v`, least significant byte first. -/
def le_bytes : Nat → Nat → List Nat
  | 0, _ => []
  | size + 1, v => v % 256 :: le_bytes size (v / 256)

/-- The integer held by bytes, least significant byte first. -/
def le_value : List Nat → Nat
  | [] => 0
  | b :: rest => b + 256 * le_value rest

/-- Modelled from the spec: `bpf_probe_read_kernel`, the bounded read of
kernel memory, which reads as `bpf_probe_read` does. -/
def bpf_probe_read_kernel (dst : List Nat) (size : Nat) (src : Option (List Nat)) :
    List Nat :=
  bpf_probe_read dst size src

/-- The value of a variable of `size` bytes initialised to 0 after
`bpf_probe_read(&var, size, addr)`. -/
def probe_read_var (mem : kernel_memory) (size addr : Nat) : Nat :=
  le_value (bpf_probe_read (le_bytes size 0) size (read_kernel_memory mem addr size)) %
    2 ^ (8 * size)

/-- The value of a variable of `size` bytes initialised to 0 after
`bpf_probe_read_kernel(&var, size, addr)`. -/
def probe_read_kernel_var (mem : kernel_memory) (size addr : Nat) : Nat :=
  le_value (bpf_probe_read_kernel (le_bytes size 0) size (read_kernel_memory mem addr size)) %
    2 ^ (8 * size)

/-- The root namespace nr, read from `&pid->numbers[0].nr`. -/
def get_root_nr_from_pid_struct (mem : kernel_memory) (off : process_offsets) (pid : Nat) :
    Nat :=
  let root_nr := probe_read_var mem 4 ((pid + off.pid_numbers_offset) % 2 ^ 64)
  root_nr

/-- The root namespace nr of a task. -/
def get_root_nr_from_task_struct (mem : kernel_memory) (off : process_offsets) (task : Nat) :
    Nat :=
  let pid := probe_read_var mem 8 ((task + off.task_struct_pid_offset) % 2 ^ 64)
  get_root_nr_from_pid_struct mem off pid

/-- The nr of a task in its own namespace, read from
`&pid->numbers[pid_level].nr`. -/
def get_namespace_nr_from_task_struct (mem : kernel_memory) (off : process_offsets)
    (task : Nat) : Nat :=
  let pid := probe_read_kernel_var mem 8 ((task + off.task_struct_pid_offset) % 2 ^ 64)
  let pid_level := probe_read_kernel_var mem 4 ((pid + off.pid_level_offset) % 2 ^ 64)
  let namespace_numbers_offset := (pid_level * off.sizeof_upid) % 2 ^ 64
  let namespace_nr :=
    probe_read_kernel_var mem 4
      ((pid + off.pid_numbers_offset + namespace_numbers_offset) % 2 ^ 64)
  namespace_nr

/-- The integer of `size` bytes stored at `addr`, `none` when the bytes cannot
be read. -/
def value_at (mem : kernel_memory) (size addr : Nat) : Option Nat :=
  (read_kernel_memory mem addr size).map (fun bytes => le_value bytes % 2 ^ (8 * size))

/-- The element of index `index` of the numbers array of the pid descriptor
at `pid`: the 32-bit value at `numbers offset + index * sizeof upid`. -/
def numbers_nr (mem : kernel_memory) (off : process_offsets) (pid index : Nat) : Option Nat :=
  value_at mem 4 (pid + off.pid_numbers_offset + index * off.sizeof_upid)

/-! ## Example states -/

/-- An image entry whose executable has inode `ino`. -/
def image_with_inode (ino : Nat) : proc_cache_t :=
  { container := { container_id := [], cgroup_context := { cgroup_flags := 0, other := [] } },
    entry := { executable := { path_key := { ino := ino, other := [] }, other := [] },
               exec_timestamp := 0, tty_name := [], comm := [] } }

/-- A thread-group entry that only carries a cookie. -/
def thread_group_with_cookie (cookie : Nat) : pid_cache_t :=
  { cookie := cookie, user_session_id := 0, ppid := 1, fork_timestamp := 5,
    exit_timestamp := 0, credentials := { uid := 0, gid := 0, capabilities := 0 } }

/-- A cache state given by its thread-group and image tables. -/
def caches (pids : bpf_map pid_cache_t) (images : bpf_map proc_cache_t) : maps :=
  { kill_list := [], pid_cache := pids, proc_cache := images, netns_cache := [],
    pid_ignored := [], process_event_gen := [] }

/-- A context with every field set to a recognisable value. -/
def stale_context : process_context_t :=
  { pid := 9, tid := 9, netns := 9, is_kworker := 0, inode := 9 }

/-- An event record left behind by an earlier event. -/
def used_event (tag : Nat) : process_event_t :=
  { event := { flags := 3, other := [tag, 1] }, args_id := tag, args_truncated := 1,
    envs_id := tag, envs_truncated := 1, other := [tag, tag, 7] }

/-- Tables that only hold a pool of event records. -/
def pool_only (pool : bpf_map process_event_t) : maps :=
  { kill_list := [], pid_cache := [], proc_cache := [], netns_cache := [],
    pid_ignored := [], process_event_gen := pool }

/-- Tables that only hold pending signals. -/
def kill_list_only (pending : bpf_map Nat) : maps :=
  { kill_list := pending, pid_cache := [], proc_cache := [], netns_cache := [],
    pid_ignored := [], process_event_gen := [] }

/-- Tables that only hold the two side tables of the resolver. -/
def side_tables (netns ignored : bpf_map Nat) : maps :=
  { kill_list := [], pid_cache := [], proc_cache := [], netns_cache := netns,
    pid_ignored := ignored, process_event_gen := [] }

/-- An image entry with the given container id, cgroup flags, tty name and
comm. -/
def image_of (container_id : List Nat) (cgroup_flags ino : Nat) (tty_name comm : List Nat) :
    proc_cache_t :=
  { container :=
      { container_id := container_id,
        cgroup_context := { cgroup_flags := cgroup_flags, other := [8] } },
    entry := { executable := { path_key := { ino := ino, other := [1] }, other := [2] },
               exec_timestamp := ino + 1, tty_name := tty_name, comm := comm } }

/-- A memory made of segments, each a base address with its bytes. -/
def memory_of : List (Nat × List Nat) → kernel_memory
  | [], _ => none
  | (base, bytes) :: rest, addr =>
    if base ≤ addr ∧ addr < base + bytes.length then bytes.get? (addr - base)
    else memory_of rest addr

/-- Offsets of a simulated layout: the pid pointer at 8 in the task, the level
at 4 and the numbers array at 16 in the pid descriptor, elements of 16
bytes. -/
def simulated_offsets : process_offsets :=
  { task_struct_pid_offset := 8, pid_level_offset := 4, pid_numbers_offset := 16,
    sizeof_upid := 16 }

/-- A simulated task at 4096 whose pid descriptor at 8192 has the given level
and the numbers 11, 22, 33 at the indices 0, 1, 2. -/
def simulated_memory (level : Nat) : kernel_memory :=
  memory_of
    [(4104, [0, 32, 0, 0, 0, 0, 0, 0]), (8196, [level, 0, 0, 0]), (8208, [11, 0, 0, 0]),
      (8224, [22, 0, 0, 0]), (8240, [33, 0, 0, 0])]

/-! ## Theorems -/

theorem upper_bits_eq (pid_tgid : Nat) (h : pid_tgid < 2 ^ 64) :
    (pid_tgid >>> 32) % 2 ^ 32 = pid_tgid / 2 ^ 32 := by
  rw [Nat.shiftRight_eq_div_pow]
  omega

theorem fill_fst (m : maps) (data : process_context_t) (pid_tgid : Nat) :
    (fill_process_context_with_pid_tgid m data pid_tgid).1 =
      get_proc_cache m ((pid_tgid >>> 32) % 2 ^ 32) := by
  simp only [fill_process_context_with_pid_tgid]
  split <;> simp_all

theorem fill_inode (m : maps) (data : process_context_t) (pid_tgid : Nat) :
    (fill_process_context_with_pid_tgid m data pid_tgid).2.inode =
      match get_proc_cache m ((pid_tgid >>> 32) % 2 ^ 32) with
      | some pc => pc.entry.executable.path_key.ino
      | none => data.inode := by
  simp only [fill_process_context_with_pid_tgid]
  cases get_proc_cache m ((pid_tgid >>> 32) % 2 ^ 32) <;>
    cases bpf_map_lookup_elem m.netns_cache (pid_tgid % 2 ^ 32) <;>
    cases bpf_map_lookup_elem m.pid_ignored ((pid_tgid >>> 32) % 2 ^ 32) <;> rfl

theorem fill_pid (m : maps) (data : process_context_t) (pid_tgid : Nat) :
    (fill_process_context_with_pid_tgid m data pid_tgid).2.pid =
      (pid_tgid >>> 32) % 2 ^ 32 := by
  simp only [fill_process_context_with_pid_tgid]
  cases get_proc_cache m ((pid_tgid >>> 32) % 2 ^ 32) <;>
    cases bpf_map_lookup_elem m.netns_cache (pid_tgid % 2 ^ 32) <;>
    cases bpf_map_lookup_elem m.pid_ignored ((pid_tgid >>> 32) % 2 ^ 32) <;> rfl

theorem fill_tid (m : maps) (data : process_context_t) (pid_tgid : Nat) :
    (fill_process_context_with_pid_tgid m data pid_tgid).2.tid = pid_tgid % 2 ^ 32 := by
  simp only [fill_process_context_with_pid_tgid]
  cases get_proc_cache m ((pid_tgid >>> 32) % 2 ^ 32) <;>
    cases bpf_map_lookup_elem m.netns_cache (pid_tgid % 2 ^ 32) <;>
    cases bpf_map_lookup_elem m.pid_ignored ((pid_tgid >>> 32) % 2 ^ 32) <;> rfl

theorem lookup_delete_self {V : Type} (t : bpf_map V) (key : Nat) :
    bpf_map_lookup_elem (bpf_map_delete_elem t key) key = none := by
  induction t with
  | nil => rfl
  | cons e rest ih =>
    obtain ⟨k, v⟩ := e
    by_cases hk : k = key
    · simpa [bpf_map_delete_elem, List.filter_cons, hk] using ih
    · simpa [bpf_map_delete_elem, List.filter_cons, hk, bpf_map_lookup_elem] using ih

theorem delete_of_lookup_none {V : Type} (t : bpf_map V) (key : Nat)
    (h : bpf_map_lookup_elem t key = none) : bpf_map_delete_elem t key = t := by
  induction t with
  | nil => rfl
  | cons e rest ih =>
    obtain ⟨k, v⟩ := e
    by_cases hk : k = key
    · simp [bpf_map_lookup_elem, hk] at h
    · simp only [bpf_map_lookup_elem, hk, if_false] at h
      have ih2 := ih h
      simp only [bpf_map_delete_elem] at ih2 ⊢
      rw [List.filter_cons_of_pos (by simpa using hk), ih2]

theorem lookup_store_self {V : Type} (t : bpf_map V) (key : Nat) (old w : V)
    (h : bpf_map_lookup_elem t key = some old) :
    bpf_map_lookup_elem (bpf_map_store t key w) key = some w := by
  induction t with
  | nil => simp [bpf_map_lookup_elem] at h
  | cons e rest ih =>
    obtain ⟨k, v⟩ := e
    by_cases hk : k = key
    · simp [bpf_map_store, bpf_map_lookup_elem, hk]
    · simp only [bpf_map_lookup_elem, hk, if_false] at h
      simp only [bpf_map_store, bpf_map_lookup_elem, hk, if_false]
      exact ih h

theorem lookup_store_other {V : Type} (t : bpf_map V) (key other : Nat) (w : V)
    (h : other ≠ key) :
    bpf_map_lookup_elem (bpf_map_store t key w) other = bpf_map_lookup_elem t other := by
  induction t with
  | nil => rfl
  | cons e rest ih =>
    obtain ⟨k, v⟩ := e
    by_cases hk : k = key
    · have hko : ¬ key = other := fun e => h e.symm
      simp only [bpf_map_store, hk, if_true, bpf_map_lookup_elem, hko, if_false]
    · simp only [bpf_map_store, hk, if_false, bpf_map_lookup_elem]
      by_cases hko : k = other
      · simp only [hko, if_true]
      · simp only [hko, if_false]
        exact ih

theorem fill_netns (m : maps) (data : process_context_t) (pid_tgid : Nat) :
    (fill_process_context_with_pid_tgid m data pid_tgid).2.netns =
      match bpf_map_lookup_elem m.netns_cache (pid_tgid % 2 ^ 32) with
      | some netns => netns
      | none => data.netns := by
  simp only [fill_process_context_with_pid_tgid]
  cases get_proc_cache m ((pid_tgid >>> 32) % 2 ^ 32) <;>
    cases bpf_map_lookup_elem m.netns_cache (pid_tgid % 2 ^ 32) <;>
    cases bpf_map_lookup_elem m.pid_ignored ((pid_tgid >>> 32) % 2 ^ 32) <;> rfl

theorem fill_is_kworker (m : maps) (data : process_context_t) (pid_tgid : Nat) :
    (fill_process_context_with_pid_tgid m data pid_tgid).2.is_kworker =
      match bpf_map_lookup_elem m.pid_ignored ((pid_tgid >>> 32) % 2 ^ 32) with
      | some _ => 1
      | none => data.is_kworker := by
  simp only [fill_process_context_with_pid_tgid]
  cases get_proc_cache m ((pid_tgid >>> 32) % 2 ^ 32) <;>
    cases bpf_map_lookup_elem m.netns_cache (pid_tgid % 2 ^ 32) <;>
    cases bpf_map_lookup_elem m.pid_ignored ((pid_tgid >>> 32) % 2 ^ 32) <;> rfl

/-! ### Process cache resolver -/

/-- C1: when `pid_cache` maps the pid (upper 32 bits of `pid_tgid`) to an entry
with a non-zero cookie and `proc_cache` maps that cookie to an image entry `E`,
`fill_process_context_with_pid_tgid` returns `E` and sets the inode of the
context to `E.entry.executable.path_key.ino`. -/
theorem fill_returns_image_and_inode (m : maps) (data : process_context_t)
    (pid_tgid : Nat) (pid_entry : pid_cache_t) (E : proc_cache_t)
    (hw : pid_tgid < 2 ^ 64)
    (hpid : bpf_map_lookup_elem m.pid_cache (pid_tgid / 2 ^ 32) = some pid_entry)
    (hcookie : pid_entry.cookie ≠ 0)
    (himg : bpf_map_lookup_elem m.proc_cache pid_entry.cookie = some E) :
    (fill_process_context_with_pid_tgid m data pid_tgid).1 = some E ∧
      (fill_process_context_with_pid_tgid m data pid_tgid).2.inode =
        E.entry.executable.path_key.ino := by
  have hpc : get_proc_cache m ((pid_tgid >>> 32) % 2 ^ 32) = some E := by
    rw [upper_bits_eq pid_tgid hw]
    unfold get_proc_cache get_pid_cache
    rw [hpid]
    simp only [get_proc_from_cookie, hcookie, if_false, himg]
  refine ⟨?_, ?_⟩
  · rw [fill_fst, hpc]
  · rw [fill_inode, hpc]

/-- Witness of C1: pid 100 with cookie 42 and an image of inode 777 resolve to
inode 777. -/
theorem fill_returns_image_and_inode_witness :
    (fill_process_context_with_pid_tgid
        (caches [(100, thread_group_with_cookie 42)] [(42, image_with_inode 777)])
        stale_context (100 * 2 ^ 32 + 7)).1 = some (image_with_inode 777) ∧
      (fill_process_context_with_pid_tgid
        (caches [(100, thread_group_with_cookie 42)] [(42, image_with_inode 777)])
        stale_context (100 * 2 ^ 32 + 7)).2.inode = 777 :=
  fill_returns_image_and_inode
    (caches [(100, thread_group_with_cookie 42)] [(42, image_with_inode 777)])
    stale_context (100 * 2 ^ 32 + 7) (thread_group_with_cookie 42) (image_with_inode 777)
    (by decide) (by decide) (by decide) (by decide)

/-- C2: when `pid_cache` has no entry for the pid (upper 32 bits of
`pid_tgid`), whatever `proc_cache` holds, `fill_process_context_with_pid_tgid`
returns no image reference and does not write the inode field. -/
theorem fill_without_thread_group (m : maps) (data : process_context_t) (pid_tgid : Nat)
    (hw : pid_tgid < 2 ^ 64)
    (hpid : bpf_map_lookup_elem m.pid_cache (pid_tgid / 2 ^ 32) = none) :
    (fill_process_context_with_pid_tgid m data pid_tgid).1 = none ∧
      (fill_process_context_with_pid_tgid m data pid_tgid).2.inode = data.inode := by
  have hpc : get_proc_cache m ((pid_tgid >>> 32) % 2 ^ 32) = none := by
    rw [upper_bits_eq pid_tgid hw]
    unfold get_proc_cache get_pid_cache
    rw [hpid]
  refine ⟨?_, ?_⟩
  · rw [fill_fst, hpc]
  · rw [fill_inode, hpc]

/-- Witness of C2: pid 100 is unknown to `pid_cache` while `proc_cache` holds
images, among them one under key 0. -/
theorem fill_without_thread_group_witness :
    (fill_process_context_with_pid_tgid
        (caches [(101, thread_group_with_cookie 42)]
          [(42, image_with_inode 777), (0, image_with_inode 5)])
        stale_context (100 * 2 ^ 32 + 7)).1 = none ∧
      (fill_process_context_with_pid_tgid
        (caches [(101, thread_group_with_cookie 42)]
          [(42, image_with_inode 777), (0, image_with_inode 5)])
        stale_context (100 * 2 ^ 32 + 7)).2.inode = stale_context.inode :=
  fill_without_thread_group
    (caches [(101, thread_group_with_cookie 42)]
      [(42, image_with_inode 777), (0, image_with_inode 5)])
    stale_context (100 * 2 ^ 32 + 7) (by decide) (by decide)

/-- C3: when `pid_cache` maps the pid to an entry whose non-zero cookie has no
entry in `proc_cache`, `fill_process_context_with_pid_tgid` returns no image
reference and does not write the inode field, and `get_pid_cache` still returns
the thread-group entry. -/
theorem fill_with_deleted_image (m : maps) (data : process_context_t) (pid_tgid : Nat)
    (pid_entry : pid_cache_t)
    (hw : pid_tgid < 2 ^ 64)
    (hpid : bpf_map_lookup_elem m.pid_cache (pid_tgid / 2 ^ 32) = some pid_entry)
    (hcookie : pid_entry.cookie ≠ 0)
    (himg : bpf_map_lookup_elem m.proc_cache pid_entry.cookie = none) :
    (fill_process_context_with_pid_tgid m data pid_tgid).1 = none ∧
      (fill_process_context_with_pid_tgid m data pid_tgid).2.inode = data.inode ∧
      get_pid_cache m (pid_tgid / 2 ^ 32) = some pid_entry := by
  have hpc : get_proc_cache m ((pid_tgid >>> 32) % 2 ^ 32) = none := by
    rw [upper_bits_eq pid_tgid hw]
    unfold get_proc_cache get_pid_cache
    rw [hpid]
    simp only [get_proc_from_cookie, hcookie, if_false, himg]
  refine ⟨?_, ?_, hpid⟩
  · rw [fill_fst, hpc]
  · rw [fill_inode, hpc]

/-- Witness of C3: the image of cookie 42 has been deleted from `proc_cache`,
the thread group 100 still refers to it. -/
theorem fill_with_deleted_image_witness :
    (fill_process_context_with_pid_tgid
        (caches [(100, thread_group_with_cookie 42)]
          (bpf_map_delete_elem [(42, image_with_inode 777)] 42))
        stale_context (100 * 2 ^ 32 + 7)).1 = none ∧
      (fill_process_context_with_pid_tgid
        (caches [(100, thread_group_with_cookie 42)]
          (bpf_map_delete_elem [(42, image_with_inode 777)] 42))
        stale_context (100 * 2 ^ 32 + 7)).2.inode = stale_context.inode ∧
      get_pid_cache
        (caches [(100, thread_group_with_cookie 42)]
          (bpf_map_delete_elem [(42, image_with_inode 777)] 42))
        100 = some (thread_group_with_cookie 42) :=
  fill_with_deleted_image
    (caches [(100, thread_group_with_cookie 42)]
      (bpf_map_delete_elem [(42, image_with_inode 777)] 42))
    stale_context (100 * 2 ^ 32 + 7) (thread_group_with_cookie 42)
    (by decide) (by decide) (by decide) (lookup_delete_self _ 42)

/-- C4: for a thread-group entry whose cookie is 0, `get_proc_from_cookie` and
`get_proc_cache` answer "not found" whatever `proc_cache` holds, the resolver
returns no image reference and does not write the inode field, and its result
is the same for every content of `proc_cache`. -/
theorem zero_cookie_short_circuit (m : maps) (data : process_context_t) (pid_tgid : Nat)
    (pid_entry : pid_cache_t)
    (hw : pid_tgid < 2 ^ 64)
    (hpid : bpf_map_lookup_elem m.pid_cache (pid_tgid / 2 ^ 32) = some pid_entry)
    (hcookie : pid_entry.cookie = 0) :
    get_proc_from_cookie m pid_entry.cookie = none ∧
      get_proc_cache m (pid_tgid / 2 ^ 32) = none ∧
      (fill_process_context_with_pid_tgid m data pid_tgid).1 = none ∧
      (fill_process_context_with_pid_tgid m data pid_tgid).2.inode = data.inode ∧
      ∀ images : bpf_map proc_cache_t,
        get_proc_from_cookie { m with proc_cache := images } 0 = none ∧
        get_proc_cache { m with proc_cache := images } (pid_tgid / 2 ^ 32) = none ∧
        fill_process_context_with_pid_tgid { m with proc_cache := images } data pid_tgid =
          fill_process_context_with_pid_tgid m data pid_tgid := by
  have hzero : ∀ n : maps, get_proc_from_cookie n 0 = none := fun n => by
    simp only [get_proc_from_cookie, if_true]
  have hnone : ∀ n : maps, n.pid_cache = m.pid_cache →
      get_proc_cache n (pid_tgid / 2 ^ 32) = none := fun n hn => by
    unfold get_proc_cache get_pid_cache
    rw [hn, hpid]
    simp only [hcookie, hzero]
  have hfill : ∀ n : maps, n.pid_cache = m.pid_cache → n.netns_cache = m.netns_cache →
      n.pid_ignored = m.pid_ignored →
      fill_process_context_with_pid_tgid n data pid_tgid =
        fill_process_context_with_pid_tgid m data pid_tgid := fun n h1 h2 h3 => by
    have e1 := hnone n h1
    have e2 := hnone m rfl
    rw [← upper_bits_eq pid_tgid hw] at e1 e2
    simp only [fill_process_context_with_pid_tgid, e1, e2, h2, h3]
  have hpc := hnone m rfl
  refine ⟨hcookie ▸ hzero m, hpc, ?_, ?_, fun images => ⟨hzero _, hnone _ rfl, hfill _ rfl rfl rfl⟩⟩
  · rw [fill_fst, upper_bits_eq pid_tgid hw, hpc]
  · rw [fill_inode, upper_bits_eq pid_tgid hw, hpc]

/-- Witness of C4: thread group 100 has cookie 0 and `proc_cache` holds an
image under key 0. -/
theorem zero_cookie_short_circuit_witness :
    get_proc_from_cookie
        (caches [(100, thread_group_with_cookie 0)] [(0, image_with_inode 777)])
        (thread_group_with_cookie 0).cookie = none ∧
      get_proc_cache
        (caches [(100, thread_group_with_cookie 0)] [(0, image_with_inode 777)]) 100 = none ∧
      (fill_process_context_with_pid_tgid
        (caches [(100, thread_group_with_cookie 0)] [(0, image_with_inode 777)])
        stale_context (100 * 2 ^ 32 + 7)).1 = none ∧
      (fill_process_context_with_pid_tgid
        (caches [(100, thread_group_with_cookie 0)] [(0, image_with_inode 777)])
        stale_context (100 * 2 ^ 32 + 7)).2.inode = 9 :=
  have h := zero_cookie_short_circuit
    (caches [(100, thread_group_with_cookie 0)] [(0, image_with_inode 777)])
    stale_context (100 * 2 ^ 32 + 7) (thread_group_with_cookie 0)
    (by decide) (by decide) (by decide)
  ⟨h.1, h.2.1, h.2.2.1, h.2.2.2.1⟩

/-- C5: for a 64-bit `pid_tgid`, `fill_process_context_with_pid_tgid` sets
`pid` to the upper 32 bits and `tid` to the lower 32 bits, so that
`pid * 2 ^ 32 + tid = pid_tgid`. -/
theorem fill_splits_pid_tgid (m : maps) (data : process_context_t) (pid_tgid : Nat)
    (hw : pid_tgid < 2 ^ 64) :
    (fill_process_context_with_pid_tgid m data pid_tgid).2.pid = pid_tgid / 2 ^ 32 ∧
      (fill_process_context_with_pid_tgid m data pid_tgid).2.tid = pid_tgid % 2 ^ 32 ∧
      (fill_process_context_with_pid_tgid m data pid_tgid).2.pid * 2 ^ 32 +
        (fill_process_context_with_pid_tgid m data pid_tgid).2.tid = pid_tgid := by
  rw [fill_pid, fill_tid, upper_bits_eq pid_tgid hw]
  refine ⟨rfl, rfl, ?_⟩
  omega

/-- Witness of C5: `pid_tgid = 100 * 2 ^ 32 + 7` gives pid 100 and tid 7. -/
theorem fill_splits_pid_tgid_witness :
    (fill_process_context_with_pid_tgid (caches [] []) stale_context
        (100 * 2 ^ 32 + 7)).2.pid = 100 ∧
      (fill_process_context_with_pid_tgid (caches [] []) stale_context
        (100 * 2 ^ 32 + 7)).2.tid = 7 ∧
      (fill_process_context_with_pid_tgid (caches [] []) stale_context
        (100 * 2 ^ 32 + 7)).2.pid * 2 ^ 32 +
        (fill_process_context_with_pid_tgid (caches [] []) stale_context
        (100 * 2 ^ 32 + 7)).2.tid = 100 * 2 ^ 32 + 7 :=
  fill_splits_pid_tgid (caches [] []) stale_context (100 * 2 ^ 32 + 7) (by decide)

/-! ### Identity snapshot copier -/

/-- C6: after `copy_pid_cache_except_exit_ts` the exit timestamp of the
destination is its pre-copy value, and its cookie, user session id, parent
pid, fork timestamp and credentials are those of the source. -/
theorem copy_pid_cache_keeps_exit_ts (src dst : pid_cache_t) :
    (copy_pid_cache_except_exit_ts src dst).exit_timestamp = dst.exit_timestamp ∧
      (copy_pid_cache_except_exit_ts src dst).cookie = src.cookie ∧
      (copy_pid_cache_except_exit_ts src dst).user_session_id = src.user_session_id ∧
      (copy_pid_cache_except_exit_ts src dst).ppid = src.ppid ∧
      (copy_pid_cache_except_exit_ts src dst).fork_timestamp = src.fork_timestamp ∧
      (copy_pid_cache_except_exit_ts src dst).credentials = src.credentials :=
  ⟨rfl, rfl, rfl, rfl, rfl, rfl⟩

/-- C7: for buffers of `TTY_NAME_LEN` bytes, `copy_tty_name` leaves the
destination as it is and returns 0 when `src[0] == 0`; otherwise, the source
being readable, the destination becomes the whole source buffer and the
function returns `TTY_NAME_LEN`. -/
theorem copy_tty_name_spec (TTY_NAME_LEN : Nat) (src dst : List Nat)
    (hlen : TTY_NAME_LEN < 2 ^ 32)
    (hsrc : src.length = TTY_NAME_LEN) (hdst : dst.length = TTY_NAME_LEN) :
    (src.getD 0 0 = 0 →
        ∀ readable, copy_tty_name TTY_NAME_LEN readable src dst = (0, dst)) ∧
      (src.getD 0 0 ≠ 0 →
        copy_tty_name TTY_NAME_LEN true src dst = (TTY_NAME_LEN, src)) := by
  refine ⟨fun h readable => ?_, fun h => ?_⟩
  · simp only [copy_tty_name, h, if_true]
  · simp only [copy_tty_name, h, if_false, if_true, bpf_probe_read]
    rw [Nat.mod_eq_of_lt hlen, ← hsrc, List.take_length, List.drop_of_length_le (by omega),
      List.append_nil]

/-- Witness of C7: a four-byte buffer that holds "pts" is copied whole, an
empty one is not copied. -/
theorem copy_tty_name_spec_witness :
    copy_tty_name 4 true [0, 1, 2, 3] [9, 9, 9, 9] = (0, [9, 9, 9, 9]) ∧
      copy_tty_name 4 true [112, 116, 115, 0] [9, 9, 9, 9] = (4, [112, 116, 115, 0]) :=
  ⟨(copy_tty_name_spec 4 [0, 1, 2, 3] [9, 9, 9, 9] (by decide) rfl rfl).1 (by decide) true,
    (copy_tty_name_spec 4 [112, 116, 115, 0] [9, 9, 9, 9] (by decide) rfl rfl).2 (by decide)⟩

/-! ### Event buffer pool -/

/-- Counterexample of C8: with 16 slots, two events of pid 1 (thread ids 1 and
2) have congruent pids and get the distinct slot keys 1 and 2, and acquire
distinct slots. -/
theorem congruent_pids_distinct_slots :
    ((2 ^ 32 + 1) / 2 ^ 32) % 16 = ((2 ^ 32 + 2) / 2 ^ 32) % 16 ∧
      new_process_event_key 16 (2 ^ 32 + 1) ≠ new_process_event_key 16 (2 ^ 32 + 2) ∧
      (new_process_event 16 4 (pool_only [(1, used_event 1), (2, used_event 2)])
        (2 ^ 32 + 1) 0).1 = some 1 ∧
      (new_process_event 16 4 (pool_only [(1, used_event 1), (2, used_event 2)])
        (2 ^ 32 + 2) 0).1 = some 2 := by
  refine ⟨by decide, by decide, by decide, by decide⟩

/-- C8, amended: for every pool size `EVENT_GEN_SIZE > 0`, two events whose
whole 64-bit `pid_tgid` values are congruent modulo `EVENT_GEN_SIZE` get the
same slot key from `new_process_event`, which acquires the same slot for
both. -/
theorem congruent_pid_tgid_same_slot (EVENT_GEN_SIZE EVENT_FLAGS_ACTIVITY_DUMP_SAMPLE : Nat)
    (m : maps) (pid_tgid1 pid_tgid2 is_fork : Nat)
    (_hN : 0 < EVENT_GEN_SIZE)
    (hcong : pid_tgid1 % EVENT_GEN_SIZE = pid_tgid2 % EVENT_GEN_SIZE) :
    new_process_event_key EVENT_GEN_SIZE pid_tgid1 =
        new_process_event_key EVENT_GEN_SIZE pid_tgid2 ∧
      new_process_event EVENT_GEN_SIZE EVENT_FLAGS_ACTIVITY_DUMP_SAMPLE m pid_tgid1 is_fork =
        new_process_event EVENT_GEN_SIZE EVENT_FLAGS_ACTIVITY_DUMP_SAMPLE m pid_tgid2
          is_fork := by
  have hkey : new_process_event_key EVENT_GEN_SIZE pid_tgid1 =
      new_process_event_key EVENT_GEN_SIZE pid_tgid2 := by
    unfold new_process_event_key
    rw [hcong]
  refine ⟨hkey, ?_⟩
  unfold new_process_event
  rw [hkey]

/-- Witness of C8, amended: with 16 slots, `pid_tgid` values `2 ^ 32 + 1`
and `5 * 2 ^ 32 + 17` are congruent and acquire the same slot. -/
theorem congruent_pid_tgid_same_slot_witness :
    new_process_event_key 16 (2 ^ 32 + 1) = new_process_event_key 16 (5 * 2 ^ 32 + 17) ∧
      new_process_event 16 4 (pool_only [(1, used_event 1), (2, used_event 2)])
          (2 ^ 32 + 1) 0 =
        new_process_event 16 4 (pool_only [(1, used_event 1), (2, used_event 2)])
          (5 * 2 ^ 32 + 17) 0 :=
  congruent_pid_tgid_same_slot 16 4 (pool_only [(1, used_event 1), (2, used_event 2)])
    (2 ^ 32 + 1) (5 * 2 ^ 32 + 17) 0 (by decide) (by decide)

/-- C9: when `new_process_event` obtains the slot, whatever the slot held, it
returns the slot and the record in it has every field zero, except that
`event.flags` is `EVENT_FLAGS_ACTIVITY_DUMP_SAMPLE` when `is_fork == 0` and 0
otherwise, the other slots being as before; when the slot cannot be obtained
it returns `NULL` and changes nothing. -/
theorem new_process_event_zeroes_slot
    (EVENT_GEN_SIZE EVENT_FLAGS_ACTIVITY_DUMP_SAMPLE : Nat) (m : maps)
    (current_pid_tgid is_fork : Nat) :
    (∀ old : process_event_t,
      bpf_map_lookup_elem m.process_event_gen
          (new_process_event_key EVENT_GEN_SIZE current_pid_tgid) = some old →
        (new_process_event EVENT_GEN_SIZE EVENT_FLAGS_ACTIVITY_DUMP_SAMPLE m
            current_pid_tgid is_fork).1 =
          some (new_process_event_key EVENT_GEN_SIZE current_pid_tgid) ∧
        bpf_map_lookup_elem
            (new_process_event EVENT_GEN_SIZE EVENT_FLAGS_ACTIVITY_DUMP_SAMPLE m
              current_pid_tgid is_fork).2.process_event_gen
            (new_process_event_key EVENT_GEN_SIZE current_pid_tgid) =
          some
            { event :=
                { flags := if is_fork = 0 then EVENT_FLAGS_ACTIVITY_DUMP_SAMPLE else 0,
                  other := List.replicate old.event.other.length 0 },
              args_id := 0, args_truncated := 0, envs_id := 0, envs_truncated := 0,
              other := List.replicate old.other.length 0 } ∧
        ∀ other : Nat, other ≠ new_process_event_key EVENT_GEN_SIZE current_pid_tgid →
          bpf_map_lookup_elem
              (new_process_event EVENT_GEN_SIZE EVENT_FLAGS_ACTIVITY_DUMP_SAMPLE m
                current_pid_tgid is_fork).2.process_event_gen other =
            bpf_map_lookup_elem m.process_event_gen other) ∧
      (bpf_map_lookup_elem m.process_event_gen
          (new_process_event_key EVENT_GEN_SIZE current_pid_tgid) = none →
        new_process_event EVENT_GEN_SIZE EVENT_FLAGS_ACTIVITY_DUMP_SAMPLE m
          current_pid_tgid is_fork = (none, m)) := by
  refine ⟨fun old hold => ?_, fun hnone => ?_⟩
  · refine ⟨?_, ?_, fun other hother => ?_⟩
    · simp only [new_process_event, hold]
    · simp only [new_process_event, hold]
      rw [lookup_store_self _ _ old _ hold]
      by_cases hf : is_fork = 0
      · simp [hf, builtin_memset_zero]
      · simp [hf, builtin_memset_zero]
    · simp only [new_process_event, hold]
      exact lookup_store_other _ _ _ _ hother
  · simp only [new_process_event, hnone]

/-- Witness of C9: slot 1 holds a used record; a non-fork event gets it zeroed
with flags 4, a fork event gets it zeroed with flags 0, and an event whose
slot 2 is missing gets `NULL` and the pool stays as it is. -/
theorem new_process_event_zeroes_slot_witness :
    (new_process_event 16 4 (pool_only [(1, used_event 1)]) (2 ^ 32 + 1) 0).1 = some 1 ∧
      bpf_map_lookup_elem
          (new_process_event 16 4 (pool_only [(1, used_event 1)])
            (2 ^ 32 + 1) 0).2.process_event_gen 1 =
        some
          { event := { flags := 4, other := [0, 0] },
            args_id := 0, args_truncated := 0, envs_id := 0, envs_truncated := 0,
            other := [0, 0, 0] } ∧
      bpf_map_lookup_elem
          (new_process_event 16 4 (pool_only [(1, used_event 1)])
            (2 ^ 32 + 1) 1).2.process_event_gen 1 =
        some
          { event := { flags := 0, other := [0, 0] },
            args_id := 0, args_truncated := 0, envs_id := 0, envs_truncated := 0,
            other := [0, 0, 0] } ∧
      new_process_event 16 4 (pool_only [(1, used_event 1)]) (2 ^ 32 + 2) 0 =
        (none, pool_only [(1, used_event 1)]) :=
  have h0 := (new_process_event_zeroes_slot 16 4 (pool_only [(1, used_event 1)])
    (2 ^ 32 + 1) 0).1 (used_event 1) (by decide)
  have h1 := (new_process_event_zeroes_slot 16 4 (pool_only [(1, used_event 1)])
    (2 ^ 32 + 1) 1).1 (used_event 1) (by decide)
  have h2 := (new_process_event_zeroes_slot 16 4 (pool_only [(1, used_event 1)])
    (2 ^ 32 + 2) 0).2 (by decide)
  ⟨h0.1, h0.2.1, h1.2.1, h2⟩

/-! ### Signal dispatcher -/

/-- C10: for a pid with an entry in `kill_list`, after one `send_signal(pid)`
a second `send_signal(pid)` requests no signal and leaves `kill_list` (and
every table) as it is; when delivery is available and the stored number is
not 0, the first call requests that signal and deletes the entry. -/
theorem send_signal_twice (is_send_signal_available : Bool) (m : maps) (pid sig : Nat)
    (hpending : bpf_map_lookup_elem m.kill_list pid = some sig) :
    send_signal is_send_signal_available
        (send_signal is_send_signal_available m pid).2 pid =
      ([], (send_signal is_send_signal_available m pid).2) ∧
      (is_send_signal_available = true → sig ≠ 0 →
        (send_signal is_send_signal_available m pid).1 = [sig] ∧
        bpf_map_lookup_elem
          (send_signal is_send_signal_available m pid).2.kill_list pid = none) := by
  cases is_send_signal_available with
  | false =>
    refine ⟨?_, fun h => absurd h (by decide)⟩
    simp [send_signal]
  | true =>
    by_cases hsig : sig = 0
    · refine ⟨?_, fun _ h => absurd hsig h⟩
      simp [send_signal, hpending, hsig]
    · have hfirst : send_signal true m pid =
          ([sig], { m with kill_list := bpf_map_delete_elem m.kill_list pid }) := by
        simp [send_signal, hpending, hsig]
      rw [hfirst]
      refine ⟨?_, fun _ _ => ⟨rfl, lookup_delete_self _ _⟩⟩
      simp [send_signal, lookup_delete_self]

/-- Witness of C10: signal 9 is pending for pid 100; the first call requests
it, the second call requests nothing and finds the table as the first call
left it. -/
theorem send_signal_twice_witness :
    send_signal true (send_signal true (kill_list_only [(100, 9), (101, 15)]) 100).2 100 =
        ([], kill_list_only [(101, 15)]) ∧
      (send_signal true (kill_list_only [(100, 9), (101, 15)]) 100).1 = [9] :=
  have h := send_signal_twice true (kill_list_only [(100, 9), (101, 15)]) 100 9 (by decide)
  ⟨h.1, (h.2 rfl (by decide)).1⟩

/-- C11: `send_signal(pid)` requests a signal if and only if delivery is
available and `kill_list` holds a non-zero number for `pid`; then the signal
requested is the stored number and the entry is deleted, the result of the
delivery playing no part; in every other case nothing is requested and the
tables are as before. -/
theorem send_signal_delivers_iff (is_send_signal_available : Bool) (m : maps) (pid : Nat) :
    ((send_signal is_send_signal_available m pid).1 ≠ [] ↔
        (is_send_signal_available = true ∧
          ∃ sig, bpf_map_lookup_elem m.kill_list pid = some sig ∧ sig ≠ 0)) ∧
      (∀ sig, is_send_signal_available = true →
        bpf_map_lookup_elem m.kill_list pid = some sig → sig ≠ 0 →
          send_signal is_send_signal_available m pid =
            ([sig], { m with kill_list := bpf_map_delete_elem m.kill_list pid }) ∧
          bpf_map_lookup_elem
            (send_signal is_send_signal_available m pid).2.kill_list pid = none) ∧
      (¬ (is_send_signal_available = true ∧
          ∃ sig, bpf_map_lookup_elem m.kill_list pid = some sig ∧ sig ≠ 0) →
        send_signal is_send_signal_available m pid = ([], m)) := by
  cases is_send_signal_available with
  | false => simp [send_signal]
  | true =>
    cases hl : bpf_map_lookup_elem m.kill_list pid with
    | none => simp [send_signal, hl]
    | some sig =>
      by_cases hsig : sig = 0
      · simp [send_signal, hl, hsig]
      · simp [send_signal, hl, hsig, lookup_delete_self]

/-- Witness of C11: with delivery available and signal 9 pending for pid 100,
signal 9 is requested and the entry is deleted; with delivery unavailable, or
with the number 0 stored, nothing is requested and the table stays. -/
theorem send_signal_delivers_iff_witness :
    send_signal true (kill_list_only [(100, 9), (101, 15)]) 100 =
        ([9], kill_list_only [(101, 15)]) ∧
      send_signal false (kill_list_only [(100, 9), (101, 15)]) 100 =
        ([], kill_list_only [(100, 9), (101, 15)]) ∧
      send_signal true (kill_list_only [(100, 0), (101, 15)]) 100 =
        ([], kill_list_only [(100, 0), (101, 15)]) ∧
      send_signal true (kill_list_only [(101, 15)]) 100 =
        ([], kill_list_only [(101, 15)]) :=
  ⟨((send_signal_delivers_iff true (kill_list_only [(100, 9), (101, 15)]) 100).2.1
      9 rfl (by decide) (by decide)).1,
    (send_signal_delivers_iff false (kill_list_only [(100, 9), (101, 15)]) 100).2.2
      (by decide),
    (send_signal_delivers_iff true (kill_list_only [(100, 0), (101, 15)]) 100).2.2
      (by simp [kill_list_only, bpf_map_lookup_elem]),
    (send_signal_delivers_iff true (kill_list_only [(101, 15)]) 100).2.2
      (by simp [kill_list_only, bpf_map_lookup_elem])⟩

/-! ### Side tables of the resolver -/

/-- C15: `fill_process_context_with_pid_tgid` looks `netns_cache` up under the
thread id (lower 32 bits of `pid_tgid`): an entry found becomes the `netns` of
the context, and without an entry `netns` keeps its pre-call value. -/
theorem fill_netns_by_tid (m : maps) (data : process_context_t) (pid_tgid : Nat) :
    (∀ netns, bpf_map_lookup_elem m.netns_cache (pid_tgid % 2 ^ 32) = some netns →
        (fill_process_context_with_pid_tgid m data pid_tgid).2.netns = netns) ∧
      (bpf_map_lookup_elem m.netns_cache (pid_tgid % 2 ^ 32) = none →
        (fill_process_context_with_pid_tgid m data pid_tgid).2.netns = data.netns) := by
  refine ⟨fun netns h => ?_, fun h => ?_⟩
  · rw [fill_netns, h]
  · rw [fill_netns, h]

/-- Witness of C15: thread 7 of pid 100 has namespace 4026 in `netns_cache`,
thread 8 has none and keeps the value 9 of the context. -/
theorem fill_netns_by_tid_witness :
    (fill_process_context_with_pid_tgid (side_tables [(7, 4026), (100, 1)] [])
        stale_context (100 * 2 ^ 32 + 7)).2.netns = 4026 ∧
      (fill_process_context_with_pid_tgid (side_tables [(7, 4026), (100, 1)] [])
        stale_context (100 * 2 ^ 32 + 8)).2.netns = 9 :=
  ⟨(fill_netns_by_tid (side_tables [(7, 4026), (100, 1)] []) stale_context
      (100 * 2 ^ 32 + 7)).1 4026 (by decide),
    (fill_netns_by_tid (side_tables [(7, 4026), (100, 1)] []) stale_context
      (100 * 2 ^ 32 + 8)).2 (by decide)⟩

/-- C16: from a context whose `is_kworker` is 0, after
`fill_process_context_with_pid_tgid` the flag is 1 if and only if `pid_ignored`
holds an entry for the pid (upper 32 bits), whatever the entry stores. -/
theorem fill_is_kworker_iff (m : maps) (data : process_context_t) (pid_tgid : Nat)
    (hw : pid_tgid < 2 ^ 64) (hflag : data.is_kworker = 0) :
    (fill_process_context_with_pid_tgid m data pid_tgid).2.is_kworker = 1 ↔
      ∃ stored, bpf_map_lookup_elem m.pid_ignored (pid_tgid / 2 ^ 32) = some stored := by
  rw [fill_is_kworker, upper_bits_eq pid_tgid hw]
  cases bpf_map_lookup_elem m.pid_ignored (pid_tgid / 2 ^ 32) with
  | none => simp [hflag]
  | some stored => simp

/-- Witness of C16: pid 100 is in `pid_ignored` with the value 0 stored and is
flagged; with only the thread id 7 in `pid_ignored` it is not. -/
theorem fill_is_kworker_iff_witness :
    (fill_process_context_with_pid_tgid (side_tables [] [(100, 0)])
        stale_context (100 * 2 ^ 32 + 7)).2.is_kworker = 1 ∧
      (fill_process_context_with_pid_tgid (side_tables [] [(7, 1)])
        stale_context (100 * 2 ^ 32 + 7)).2.is_kworker ≠ 1 :=
  ⟨(fill_is_kworker_iff (side_tables [] [(100, 0)]) stale_context (100 * 2 ^ 32 + 7)
      (by decide) rfl).2 ⟨0, by decide⟩,
    fun h =>
      absurd
        ((fill_is_kworker_iff (side_tables [] [(7, 1)]) stale_context (100 * 2 ^ 32 + 7)
          (by decide) rfl).1 h)
        (by simp [side_tables, bpf_map_lookup_elem])⟩

/-- C18: for two `pid_tgid` values with the same upper 32 bits,
`fill_process_context_with_pid_tgid` returns the same image reference and
writes the same `pid`, `is_kworker` and `inode`. -/
theorem fill_same_thread_group (m : maps) (data : process_context_t)
    (pid_tgid1 pid_tgid2 : Nat)
    (hw1 : pid_tgid1 < 2 ^ 64) (hw2 : pid_tgid2 < 2 ^ 64)
    (hpid : pid_tgid1 / 2 ^ 32 = pid_tgid2 / 2 ^ 32) :
    (fill_process_context_with_pid_tgid m data pid_tgid1).1 =
        (fill_process_context_with_pid_tgid m data pid_tgid2).1 ∧
      (fill_process_context_with_pid_tgid m data pid_tgid1).2.pid =
        (fill_process_context_with_pid_tgid m data pid_tgid2).2.pid ∧
      (fill_process_context_with_pid_tgid m data pid_tgid1).2.is_kworker =
        (fill_process_context_with_pid_tgid m data pid_tgid2).2.is_kworker ∧
      (fill_process_context_with_pid_tgid m data pid_tgid1).2.inode =
        (fill_process_context_with_pid_tgid m data pid_tgid2).2.inode := by
  have h : (pid_tgid1 >>> 32) % 2 ^ 32 = (pid_tgid2 >>> 32) % 2 ^ 32 := by
    rw [upper_bits_eq pid_tgid1 hw1, upper_bits_eq pid_tgid2 hw2, hpid]
  refine ⟨?_, ?_, ?_, ?_⟩
  · rw [fill_fst, fill_fst, h]
  · rw [fill_pid, fill_pid, h]
  · rw [fill_is_kworker, fill_is_kworker, h]
  · rw [fill_inode, fill_inode, h]

/-- Witness of C18: threads 7 and 8 of pid 100 resolve to the same image, pid,
worker flag and inode. -/
theorem fill_same_thread_group_witness :
    (fill_process_context_with_pid_tgid
        (caches [(100, thread_group_with_cookie 42)] [(42, image_with_inode 777)])
        stale_context (100 * 2 ^ 32 + 7)).1 =
        (fill_process_context_with_pid_tgid
          (caches [(100, thread_group_with_cookie 42)] [(42, image_with_inode 777)])
          stale_context (100 * 2 ^ 32 + 8)).1 ∧
      (fill_process_context_with_pid_tgid
        (caches [(100, thread_group_with_cookie 42)] [(42, image_with_inode 777)])
        stale_context (100 * 2 ^ 32 + 7)).2.pid =
        (fill_process_context_with_pid_tgid
          (caches [(100, thread_group_with_cookie 42)] [(42, image_with_inode 777)])
          stale_context (100 * 2 ^ 32 + 8)).2.pid ∧
      (fill_process_context_with_pid_tgid
        (caches [(100, thread_group_with_cookie 42)] [(42, image_with_inode 777)])
        stale_context (100 * 2 ^ 32 + 7)).2.is_kworker =
        (fill_process_context_with_pid_tgid
          (caches [(100, thread_group_with_cookie 42)] [(42, image_with_inode 777)])
          stale_context (100 * 2 ^ 32 + 8)).2.is_kworker ∧
      (fill_process_context_with_pid_tgid
        (caches [(100, thread_group_with_cookie 42)] [(42, image_with_inode 777)])
        stale_context (100 * 2 ^ 32 + 7)).2.inode =
        (fill_process_context_with_pid_tgid
          (caches [(100, thread_group_with_cookie 42)] [(42, image_with_inode 777)])
          stale_context (100 * 2 ^ 32 + 8)).2.inode :=
  fill_same_thread_group
    (caches [(100, thread_group_with_cookie 42)] [(42, image_with_inode 777)])
    stale_context (100 * 2 ^ 32 + 7) (100 * 2 ^ 32 + 8) (by decide) (by decide) (by decide)

/-! ### Slot key of the event buffer pool -/

/-- C19: for a pool size `0 < EVENT_GEN_SIZE ≤ 2 ^ 32` and a 64-bit `pid_tgid`,
the slot key of `new_process_event` is `pid_tgid % EVENT_GEN_SIZE`, below
`EVENT_GEN_SIZE`, so that with every slot `0 .. EVENT_GEN_SIZE - 1` in the
pool the acquisition returns that slot and not `NULL`. -/
theorem new_process_event_key_in_range
    (EVENT_GEN_SIZE EVENT_FLAGS_ACTIVITY_DUMP_SAMPLE : Nat) (m : maps)
    (current_pid_tgid is_fork : Nat)
    (hpos : 0 < EVENT_GEN_SIZE) (hsize : EVENT_GEN_SIZE ≤ 2 ^ 32)
    (_hw : current_pid_tgid < 2 ^ 64) :
    new_process_event_key EVENT_GEN_SIZE current_pid_tgid =
        current_pid_tgid % EVENT_GEN_SIZE ∧
      new_process_event_key EVENT_GEN_SIZE current_pid_tgid < EVENT_GEN_SIZE ∧
      ((∀ slot, slot < EVENT_GEN_SIZE →
          ∃ evt, bpf_map_lookup_elem m.process_event_gen slot = some evt) →
        (new_process_event EVENT_GEN_SIZE EVENT_FLAGS_ACTIVITY_DUMP_SAMPLE m
            current_pid_tgid is_fork).1 = some (current_pid_tgid % EVENT_GEN_SIZE) ∧
        (new_process_event EVENT_GEN_SIZE EVENT_FLAGS_ACTIVITY_DUMP_SAMPLE m
            current_pid_tgid is_fork).1 ≠ none) := by
  have hlt : current_pid_tgid % EVENT_GEN_SIZE < EVENT_GEN_SIZE := Nat.mod_lt _ hpos
  have hkey : new_process_event_key EVENT_GEN_SIZE current_pid_tgid =
      current_pid_tgid % EVENT_GEN_SIZE := by
    unfold new_process_event_key
    exact Nat.mod_eq_of_lt (Nat.lt_of_lt_of_le hlt hsize)
  refine ⟨hkey, hkey ▸ hlt, fun hfull => ?_⟩
  obtain ⟨evt, hevt⟩ := hfull _ hlt
  have hfst : (new_process_event EVENT_GEN_SIZE EVENT_FLAGS_ACTIVITY_DUMP_SAMPLE m
      current_pid_tgid is_fork).1 = some (current_pid_tgid % EVENT_GEN_SIZE) := by
    simp only [new_process_event, hkey, hevt]
  refine ⟨hfst, ?_⟩
  rw [hfst]
  exact fun h => Option.noConfusion h

/-- Witness of C19: a pool of two slots, both present; `pid_tgid = 2 ^ 32 + 1`
has key 1 and acquires slot 1. -/
theorem new_process_event_key_in_range_witness :
    new_process_event_key 2 (2 ^ 32 + 1) = 1 ∧
      new_process_event_key 2 (2 ^ 32 + 1) < 2 ∧
      (new_process_event 2 4 (pool_only [(0, used_event 0), (1, used_event 1)])
        (2 ^ 32 + 1) 0).1 = some 1 :=
  have h := new_process_event_key_in_range 2 4
    (pool_only [(0, used_event 0), (1, used_event 1)]) (2 ^ 32 + 1) 0
    (by decide) (by decide) (by decide)
  ⟨h.1, h.2.1,
    (h.2.2 (fun slot hslot => by
      interval_cases slot
      · exact ⟨used_event 0, rfl⟩
      · exact ⟨used_event 1, rfl⟩)).1⟩

/-! ### Dying kworker -/

theorem is_current_kworker_dying_iff_take (comm : List Nat) :
    is_current_kworker_dying comm = true ↔ comm.take 13 = kworker_dying := by
  rcases comm with _ | ⟨c0, _ | ⟨c1, _ | ⟨c2, _ | ⟨c3, _ | ⟨c4, _ | ⟨c5, _ | ⟨c6, _ | ⟨c7,
    _ | ⟨c8, _ | ⟨c9, _ | ⟨c10, _ | ⟨c11, _ | ⟨c12, rest⟩⟩⟩⟩⟩⟩⟩⟩⟩⟩⟩⟩⟩ <;>
    simp [is_current_kworker_dying, kworker_dying, and_assoc]

/-- Counterexample of C17: the 16-byte NUL-terminated comm `kworker/dyingXY`
is accepted, and its name is not the literal `kworker/dying`. -/
theorem longer_comm_accepted :
    (kworker_dying ++ [88, 89, 0]).length = 16 ∧
      (kworker_dying ++ [88, 89, 0]).getLast? = some 0 ∧
      is_current_kworker_dying (kworker_dying ++ [88, 89, 0]) = true ∧
      comm_name (kworker_dying ++ [88, 89, 0]) ≠ kworker_dying := by
  refine ⟨by decide, by decide, by decide, by decide⟩

/-- C17, amended: `is_current_kworker_dying` compares the first 13 bytes of the
comm with the literal `kworker/dying`: it returns true if and only if these
bytes are the literal, that is if and only if the name in the comm starts with
`kworker/dying`; the name `kworker/dying` itself is accepted. -/
theorem is_current_kworker_dying_iff_starts_with (comm : List Nat) :
    (is_current_kworker_dying comm = true ↔ comm.take 13 = kworker_dying) ∧
      (is_current_kworker_dying comm = true ↔ kworker_dying <+: comm_name comm) ∧
      (comm_name comm = kworker_dying → is_current_kworker_dying comm = true) := by
  have hname : is_current_kworker_dying comm = true ↔ kworker_dying <+: comm_name comm := by
    rw [is_current_kworker_dying_iff_take]
    constructor
    · intro h
      have hsplit : comm = kworker_dying ++ comm.drop 13 := by
        conv_lhs => rw [← List.take_append_drop 13 comm, h]
      rw [hsplit]
      simp [comm_name, kworker_dying, List.takeWhile_cons]
    · intro h
      have hpre : kworker_dying <+: comm :=
        h.trans (List.takeWhile_prefix (fun b => decide (b ≠ 0)))
      have := List.prefix_iff_eq_take.mp hpre
      simpa [kworker_dying] using this.symm
  refine ⟨is_current_kworker_dying_iff_take comm, hname, fun h => ?_⟩
  rw [hname, h]

/-! ### Image entry copy -/

theorem bpf_probe_read_whole (dst src : List Nat) (size : Nat)
    (hsrc : src.length = size) (hdst : dst.length = size) :
    bpf_probe_read dst size (some src) = src := by
  simp only [bpf_probe_read]
  rw [← hsrc, List.take_length, List.drop_of_length_le (by omega), List.append_nil]

/-- C14: after `copy_proc_cache` (the source being readable, the buffers
having their declared lengths) the container id and the cgroup flags of the
destination are those of the source and its entry is the result of
`copy_proc_entry` on the embedded entries: `executable`, `exec_timestamp` and
`comm` are those of the source, and `tty_name` is that of the source when it
is not empty and keeps its pre-copy value when it is empty. -/
theorem copy_proc_cache_spec (TTY_NAME_LEN TASK_COMM_LEN : Nat) (src dst : proc_cache_t)
    (htty_src : src.entry.tty_name.length = TTY_NAME_LEN)
    (htty_dst : dst.entry.tty_name.length = TTY_NAME_LEN)
    (hcomm_src : src.entry.comm.length = TASK_COMM_LEN)
    (hcomm_dst : dst.entry.comm.length = TASK_COMM_LEN) :
    (copy_proc_cache TTY_NAME_LEN TASK_COMM_LEN true src dst).container.container_id =
        src.container.container_id ∧
      (copy_proc_cache TTY_NAME_LEN TASK_COMM_LEN true src dst).container.cgroup_context.cgroup_flags =
        src.container.cgroup_context.cgroup_flags ∧
      (copy_proc_cache TTY_NAME_LEN TASK_COMM_LEN true src dst).entry =
        copy_proc_entry TTY_NAME_LEN TASK_COMM_LEN true src.entry dst.entry ∧
      (copy_proc_cache TTY_NAME_LEN TASK_COMM_LEN true src dst).entry.executable =
        src.entry.executable ∧
      (copy_proc_cache TTY_NAME_LEN TASK_COMM_LEN true src dst).entry.exec_timestamp =
        src.entry.exec_timestamp ∧
      (copy_proc_cache TTY_NAME_LEN TASK_COMM_LEN true src dst).entry.comm = src.entry.comm ∧
      (src.entry.tty_name.getD 0 0 ≠ 0 →
        (copy_proc_cache TTY_NAME_LEN TASK_COMM_LEN true src dst).entry.tty_name =
          src.entry.tty_name) ∧
      (src.entry.tty_name.getD 0 0 = 0 →
        (copy_proc_cache TTY_NAME_LEN TASK_COMM_LEN true src dst).entry.tty_name =
          dst.entry.tty_name) := by
  refine ⟨rfl, rfl, rfl, rfl, rfl, ?_, fun h => ?_, fun h => ?_⟩
  · simp only [copy_proc_cache, copy_proc_entry, if_true]
    exact bpf_probe_read_whole _ _ _ hcomm_src hcomm_dst
  · simp only [copy_proc_cache, copy_proc_entry, copy_tty_name, h, if_false, if_true]
    exact bpf_probe_read_whole _ _ _ htty_src htty_dst
  · simp only [copy_proc_cache, copy_proc_entry, copy_tty_name, h, if_true]

/-- Witness of C14: an image with tty name `pts` overwrites the tty name of
the destination, an image with an empty tty name leaves it. -/
theorem copy_proc_cache_spec_witness :
    (copy_proc_cache 4 2 true (image_of [99, 100] 5 777 [112, 116, 115, 0] [115, 104])
        (image_of [1, 2] 0 1 [9, 9, 9, 9] [7, 7])).entry.tty_name = [112, 116, 115, 0] ∧
      (copy_proc_cache 4 2 true (image_of [99, 100] 5 777 [0, 1, 2, 3] [115, 104])
        (image_of [1, 2] 0 1 [9, 9, 9, 9] [7, 7])).entry.tty_name = [9, 9, 9, 9] ∧
      (copy_proc_cache 4 2 true (image_of [99, 100] 5 777 [112, 116, 115, 0] [115, 104])
        (image_of [1, 2] 0 1 [9, 9, 9, 9] [7, 7])).container.container_id = [99, 100] ∧
      (copy_proc_cache 4 2 true (image_of [99, 100] 5 777 [112, 116, 115, 0] [115, 104])
        (image_of [1, 2] 0 1 [9, 9, 9, 9] [7, 7])).entry.comm = [115, 104] :=
  have h1 := copy_proc_cache_spec 4 2 (image_of [99, 100] 5 777 [112, 116, 115, 0] [115, 104])
    (image_of [1, 2] 0 1 [9, 9, 9, 9] [7, 7]) rfl rfl rfl rfl
  have h2 := copy_proc_cache_spec 4 2 (image_of [99, 100] 5 777 [0, 1, 2, 3] [115, 104])
    (image_of [1, 2] 0 1 [9, 9, 9, 9] [7, 7]) rfl rfl rfl rfl
  ⟨h1.2.2.2.2.2.2.1 (by decide), h2.2.2.2.2.2.2.2 (by decide), h1.1, h1.2.2.2.2.2.1⟩

/-! ### Namespace walker -/

theorem read_kernel_memory_length (mem : kernel_memory) (size addr : Nat) (bytes : List Nat)
    (h : read_kernel_memory mem addr size = some bytes) : bytes.length = size := by
  induction size generalizing addr bytes with
  | zero =>
    simp only [read_kernel_memory, Option.some.injEq] at h
    rw [← h]
    rfl
  | succ n ih =>
    simp only [read_kernel_memory] at h
    cases hb : mem addr with
    | none => simp [hb] at h
    | some b =>
      cases hr : read_kernel_memory mem (addr + 1) n with
      | none => simp [hb, hr] at h
      | some rest =>
        simp only [hb, hr, Option.some.injEq] at h
        rw [← h, List.length_cons, ih _ _ hr]

theorem le_bytes_length (size v : Nat) : (le_bytes size v).length = size := by
  induction size generalizing v with
  | zero => rfl
  | succ n ih => simp [le_bytes, ih]

theorem le_value_replicate_zero (size : Nat) : le_value (List.replicate size 0) = 0 := by
  induction size with
  | zero => rfl
  | succ n ih => simp [List.replicate_succ, le_value, ih]

theorem probe_read_var_of_value (mem : kernel_memory) (size addr v : Nat)
    (h : value_at mem size addr = some v) : probe_read_var mem size addr = v := by
  unfold value_at at h
  cases hr : read_kernel_memory mem addr size with
  | none => simp [hr] at h
  | some bytes =>
    simp only [hr, Option.map_some', Option.some.injEq] at h
    unfold probe_read_var
    rw [hr, bpf_probe_read_whole _ _ _ (read_kernel_memory_length _ _ _ _ hr)
      (le_bytes_length _ _), h]

theorem probe_read_var_of_fault (mem : kernel_memory) (size addr : Nat)
    (h : read_kernel_memory mem addr size = none) : probe_read_var mem size addr = 0 := by
  unfold probe_read_var
  rw [h]
  simp only [bpf_probe_read]
  rw [List.drop_of_length_le (by rw [le_bytes_length]), List.append_nil,
    le_value_replicate_zero, Nat.zero_mod]

theorem probe_read_kernel_var_eq (mem : kernel_memory) (size addr : Nat) :
    probe_read_kernel_var mem size addr = probe_read_var mem size addr := rfl

theorem namespace_nr_of_level (mem : kernel_memory) (off : process_offsets) (task : Nat) :
    get_namespace_nr_from_task_struct mem off task =
      probe_read_var mem 4
        ((probe_read_var mem 8 ((task + off.task_struct_pid_offset) % 2 ^ 64) +
            off.pid_numbers_offset +
            (probe_read_var mem 4
                ((probe_read_var mem 8 ((task + off.task_struct_pid_offset) % 2 ^ 64) +
                  off.pid_level_offset) % 2 ^ 64) * off.sizeof_upid) % 2 ^ 64) % 2 ^ 64) :=
  rfl

theorem root_nr_of_pid (mem : kernel_memory) (off : process_offsets) (task : Nat) :
    get_root_nr_from_task_struct mem off task =
      probe_read_var mem 4
        ((probe_read_var mem 8 ((task + off.task_struct_pid_offset) % 2 ^ 64) +
          off.pid_numbers_offset) % 2 ^ 64) :=
  rfl

theorem namespace_nr_of_level_zero (mem : kernel_memory) (off : process_offsets) (task : Nat)
    (h : probe_read_var mem 4
      ((probe_read_var mem 8 ((task + off.task_struct_pid_offset) % 2 ^ 64) +
        off.pid_level_offset) % 2 ^ 64) = 0) :
    get_namespace_nr_from_task_struct mem off task =
      get_root_nr_from_task_struct mem off task := by
  rw [namespace_nr_of_level, root_nr_of_pid, h, Nat.zero_mul, Nat.zero_mod, Nat.add_zero]

/-- C12: for a readable task and pid descriptor whose level field holds
`level`, `get_namespace_nr_from_task_struct` returns the element of index
`level` of the numbers array (the 32-bit value at
`numbers offset + level * sizeof upid`) and `get_root_nr_from_task_struct`
returns the element of index 0. -/
theorem walker_reads_level_and_root (mem : kernel_memory) (off : process_offsets)
    (task pid level nr root : Nat)
    (htask : task + off.task_struct_pid_offset < 2 ^ 64)
    (hpid : value_at mem 8 (task + off.task_struct_pid_offset) = some pid)
    (hlevel_addr : pid + off.pid_level_offset < 2 ^ 64)
    (hlevel : value_at mem 4 (pid + off.pid_level_offset) = some level)
    (hnr_addr : pid + off.pid_numbers_offset + level * off.sizeof_upid < 2 ^ 64)
    (hnr : numbers_nr mem off pid level = some nr)
    (hroot : numbers_nr mem off pid 0 = some root) :
    get_namespace_nr_from_task_struct mem off task = nr ∧
      get_root_nr_from_task_struct mem off task = root := by
  have hmul : level * off.sizeof_upid < 2 ^ 64 :=
    Nat.lt_of_le_of_lt (Nat.le_add_left _ _) hnr_addr
  have hnum : pid + off.pid_numbers_offset < 2 ^ 64 :=
    Nat.lt_of_le_of_lt (Nat.le_add_right _ _) hnr_addr
  unfold numbers_nr at hnr hroot
  rw [Nat.zero_mul, Nat.add_zero] at hroot
  refine ⟨?_, ?_⟩
  · rw [namespace_nr_of_level, Nat.mod_eq_of_lt htask, probe_read_var_of_value _ _ _ _ hpid,
      Nat.mod_eq_of_lt hlevel_addr, probe_read_var_of_value _ _ _ _ hlevel,
      Nat.mod_eq_of_lt hmul, Nat.mod_eq_of_lt hnr_addr]
    exact probe_read_var_of_value _ _ _ _ hnr
  · rw [root_nr_of_pid, Nat.mod_eq_of_lt htask, probe_read_var_of_value _ _ _ _ hpid,
      Nat.mod_eq_of_lt hnum]
    exact probe_read_var_of_value _ _ _ _ hroot

/-- Witness of C12: the simulated descriptor has level 2 and the numbers 11,
22, 33; the current-level read returns 33 and the root read returns 11. -/
theorem walker_reads_level_and_root_witness :
    get_namespace_nr_from_task_struct (simulated_memory 2) simulated_offsets 4096 = 33 ∧
      get_root_nr_from_task_struct (simulated_memory 2) simulated_offsets 4096 = 11 :=
  walker_reads_level_and_root (simulated_memory 2) simulated_offsets 4096 8192 2 33 11
    (by decide) (by decide) (by decide) (by decide) (by decide) (by decide) (by decide)

/-- C13: when the bounded read of the numbers-array element faults,
`get_root_nr_from_task_struct` and `get_namespace_nr_from_task_struct` return
0; when the read of the level field faults, the level is 0 and the
current-level variant reads the element of index 0. Here `pid` and `level` are
the values the walker has read, 0 after a fault. -/
theorem walker_fault_gives_default (mem : kernel_memory) (off : process_offsets)
    (task pid level : Nat)
    (hpid : pid = probe_read_var mem 8 ((task + off.task_struct_pid_offset) % 2 ^ 64))
    (hlevel : level = probe_read_var mem 4 ((pid + off.pid_level_offset) % 2 ^ 64)) :
    (read_kernel_memory mem ((pid + off.pid_numbers_offset) % 2 ^ 64) 4 = none →
        get_root_nr_from_task_struct mem off task = 0) ∧
      (read_kernel_memory mem
          ((pid + off.pid_numbers_offset + (level * off.sizeof_upid) % 2 ^ 64) % 2 ^ 64) 4 =
            none →
        get_namespace_nr_from_task_struct mem off task = 0) ∧
      (read_kernel_memory mem ((pid + off.pid_level_offset) % 2 ^ 64) 4 = none →
        level = 0 ∧
        get_namespace_nr_from_task_struct mem off task =
          probe_read_var mem 4 ((pid + off.pid_numbers_offset) % 2 ^ 64)) := by
  subst hlevel
  subst hpid
  refine ⟨fun h => ?_, fun h => ?_, fun h => ?_⟩
  · rw [root_nr_of_pid]
    exact probe_read_var_of_fault _ _ _ h
  · rw [namespace_nr_of_level]
    exact probe_read_var_of_fault _ _ _ h
  · have hzero := probe_read_var_of_fault _ _ _ h
    refine ⟨hzero, ?_⟩
    rw [namespace_nr_of_level_zero mem off task hzero, root_nr_of_pid]

/-- Witness of C13: a task at the unmapped address 5000 gives 0 for both
reads; a descriptor of level 7, whose element of index 7 is unmapped, gives 0
for the current-level read. -/
theorem walker_fault_gives_default_witness :
    get_root_nr_from_task_struct (simulated_memory 2) simulated_offsets 5000 = 0 ∧
      get_namespace_nr_from_task_struct (simulated_memory 7) simulated_offsets 4096 = 0 ∧
      get_namespace_nr_from_task_struct (simulated_memory 2) simulated_offsets 5000 =
        probe_read_var (simulated_memory 2) 4 ((0 + 16) % 2 ^ 64) :=
  ⟨(walker_fault_gives_default (simulated_memory 2) simulated_offsets 5000 0 0
      (by decide) (by decide)).1 (by decide),
    (walker_fault_gives_default (simulated_memory 7) simulated_offsets 4096 8192 7
      (by decide) (by decide)).2.1 (by decide),
    ((walker_fault_gives_default (simulated_memory 2) simulated_offsets 5000 0 0
      (by decide) (by decide)).2.2 (by decide)).2⟩

/-- C20: when the level field reads as 0, or its read faults,
`get_namespace_nr_from_task_struct` returns the value
`get_root_nr_from_task_struct` returns. Here `pid` is the pointer the walker
has read from the task, 0 after a fault. -/
theorem namespace_nr_eq_root_nr_at_level_zero (mem : kernel_memory) (off : process_offsets)
    (task pid : Nat)
    (hpid : pid = probe_read_var mem 8 ((task + off.task_struct_pid_offset) % 2 ^ 64))
    (hlevel : value_at mem 4 ((pid + off.pid_level_offset) % 2 ^ 64) = some 0 ∨
      read_kernel_memory mem ((pid + off.pid_level_offset) % 2 ^ 64) 4 = none) :
    get_namespace_nr_from_task_struct mem off task =
      get_root_nr_from_task_struct mem off task := by
  subst hpid
  apply namespace_nr_of_level_zero
  rcases hlevel with h | h
  · exact probe_read_var_of_value _ _ _ _ h
  · exact probe_read_var_of_fault _ _ _ h

/-- Witness of C20: with level 0 in the simulated descriptor both reads return
the element of index 0, and so they do for a task at an unmapped address. -/
theorem namespace_nr_eq_root_nr_at_level_zero_witness :
    get_namespace_nr_from_task_struct (simulated_memory 0) simulated_offsets 4096 =
        get_root_nr_from_task_struct (simulated_memory 0) simulated_offsets 4096 ∧
      get_namespace_nr_from_task_struct (simulated_memory 2) simulated_offsets 5000 =
        get_root_nr_from_task_struct (simulated_memory 2) simulated_offsets 5000 :=
  ⟨namespace_nr_eq_root_nr_at_level_zero (simulated_memory 0) simulated_offsets 4096 8192
      (by decide) (Or.inl (by decide)),
    namespace_nr_eq_root_nr_at_level_zero (simulated_memory 2) simulated_offsets 5000 0
      (by decide) (Or.inr (by decide))⟩

end Process
